import Mathlib

/-!
Shallow embedding of the Mumble client's plugin API dispatch and resource
curation subsystem (src/mumble/API_v_1_x_x.cpp) together with the
Speex-noise-cancel settings migration fragment of Settings::load.

Machine integers of the source are modelled as Nat/Int, floats and doubles
as Rat (only their type tags and exact values matter for the properties
below), raw pointers as Nat addresses, and the C++ maps (the curator map,
the user/channel directories, the settings store) as association lists.
-/

namespace API

/-- Error/status codes of the plugin API (PluginComponents_v_1_0_x.h),
restricted to the codes produced by the embedded entry points. -/
inductive mumble_error_t where
  | MUMBLE_STATUS_OK
  | MUMBLE_EC_INVALID_PLUGIN_ID
  | MUMBLE_EC_CONNECTION_NOT_FOUND
  | MUMBLE_EC_CONNECTION_UNSYNCHRONIZED
  | MUMBLE_EC_USER_NOT_FOUND
  | MUMBLE_EC_CHANNEL_NOT_FOUND
  | MUMBLE_EC_POINTER_NOT_FOUND
  | MUMBLE_EC_UNSYNCHRONIZED_BLOB
  | MUMBLE_EC_WRONG_SETTINGS_TYPE
  | MUMBLE_EC_UNKNOWN_SETTINGS_KEY
  | MUMBLE_EC_NO_ACTIVE_CONNECTION
  | MUMBLE_EC_API_REQUEST_TIMEOUT
  | MUMBLE_EC_AUDIO_NOT_AVAILABLE
  | MUMBLE_EC_INVALID_SAMPLE
  deriving DecidableEq, Repr

export mumble_error_t (MUMBLE_STATUS_OK MUMBLE_EC_INVALID_PLUGIN_ID
  MUMBLE_EC_CONNECTION_NOT_FOUND MUMBLE_EC_CONNECTION_UNSYNCHRONIZED
  MUMBLE_EC_USER_NOT_FOUND MUMBLE_EC_CHANNEL_NOT_FOUND
  MUMBLE_EC_POINTER_NOT_FOUND MUMBLE_EC_UNSYNCHRONIZED_BLOB
  MUMBLE_EC_WRONG_SETTINGS_TYPE MUMBLE_EC_UNKNOWN_SETTINGS_KEY
  MUMBLE_EC_NO_ACTIVE_CONNECTION MUMBLE_EC_API_REQUEST_TIMEOUT
  MUMBLE_EC_AUDIO_NOT_AVAILABLE MUMBLE_EC_INVALID_SAMPLE)

/-- Settings keys handled by getMumbleSettingHelper / setMumbleSettingHelper. -/
inductive mumble_settings_key_t where
  | MUMBLE_SK_INVALID
  | MUMBLE_SK_AUDIO_INPUT_VOICE_HOLD
  | MUMBLE_SK_AUDIO_INPUT_VAD_SILENCE_THRESHOLD
  | MUMBLE_SK_AUDIO_INPUT_VAD_SPEECH_THRESHOLD
  | MUMBLE_SK_AUDIO_OUTPUT_PA_MINIMUM_DISTANCE
  | MUMBLE_SK_AUDIO_OUTPUT_PA_MAXIMUM_DISTANCE
  | MUMBLE_SK_AUDIO_OUTPUT_PA_BLOOM
  | MUMBLE_SK_AUDIO_OUTPUT_PA_MINIMUM_VOLUME
  deriving DecidableEq, Repr

export mumble_settings_key_t (MUMBLE_SK_INVALID MUMBLE_SK_AUDIO_INPUT_VOICE_HOLD
  MUMBLE_SK_AUDIO_INPUT_VAD_SILENCE_THRESHOLD MUMBLE_SK_AUDIO_INPUT_VAD_SPEECH_THRESHOLD
  MUMBLE_SK_AUDIO_OUTPUT_PA_MINIMUM_DISTANCE MUMBLE_SK_AUDIO_OUTPUT_PA_MAXIMUM_DISTANCE
  MUMBLE_SK_AUDIO_OUTPUT_PA_BLOOM MUMBLE_SK_AUDIO_OUTPUT_PA_MINIMUM_VOLUME)

/-- A QVariant value as the settings helpers use it: only the four primitive
payload types of the typed settings API occur, and `isValid` is modelled by
wrapping in `Option` at the use sites. -/
inductive QVariant where
  | QInt (i : Int)
  | QDouble (d : Rat)
  | QBool (b : Bool)
  | QString (s : String)
  deriving DecidableEq, Repr

/-- The deleter function stored with a curator entry.  Only `defaultDeleter`
(a plain `free`) is ever registered by the embedded entry points. -/
inductive Deleter where
  | defaultDeleter
  deriving DecidableEq, Repr

/-- One entry of `MumbleAPICurator::m_entries`: the deleter, the owning
plugin id and the name of the API function that allocated the block. -/
structure CuratorEntry where
  m_deleter : Deleter
  m_pluginID : Nat
  m_sourceFunctionName : String
  deriving DecidableEq, Repr

/-- Contents of a heap block lent to a plugin: a NUL-terminated UTF-8 string
buffer or an id array (`getAllUsers` / `getAllChannels` style). -/
inductive HeapVal where
  | strVal (s : String)
  | idsVal (ids : List Nat)
  deriving DecidableEq, Repr

/-- A loaded client user as the API reads it: display name, cached comment
and the comment's blob hash (empty string = no hash). -/
structure ClientUser where
  qsName : String
  qsComment : String
  qbaCommentHash : String
  deriving DecidableEq, Repr

/-- A channel as the API reads it: name, cached description and the
description's blob hash. -/
structure Channel where
  qsName : String
  qsDesc : String
  qbaDescHash : String
  deriving DecidableEq, Repr

/-- The settings fields touched by the typed settings accessors
(`Global::get().s`). Floats are modelled as Rat. -/
structure Settings where
  iVoiceHold : Int
  fVADmin : Rat
  fVADmax : Rat
  fAudioMinDistance : Rat
  fAudioMaxDistance : Rat
  fAudioBloom : Rat
  fAudioMaxDistVolume : Rat
  deriving DecidableEq, Repr

/-- Association-list lookup, modelling map/hash lookup keyed by pointer
addresses, session ids, channel ids, or hash strings. -/
def assocLookup {α β : Type} [DecidableEq α] (k : α) : List (α × β) → Option β
  | [] => none
  | (a, b) :: rest => if a = k then some b else assocLookup k rest

/-- Association-list erase of a single key (std::map::erase). -/
def assocErase {α β : Type} [DecidableEq α] (k : α) : List (α × β) → List (α × β)
  | [] => []
  | (a, b) :: rest => if a = k then rest else (a, b) :: assocErase k rest

/-- std::map::insert: inserts only when the key is not yet present
(the curator "fails silently if ptr already tracked"). -/
def assocInsert {α β : Type} [DecidableEq α] (k : α) (v : β) (l : List (α × β)) :
    List (α × β) :=
  match assocLookup k l with
  | some _ => l
  | none => (k, v) :: l

/-- Association-list update of an existing key (in-place mutation of a
directory entry, e.g. caching a fetched blob on the user object). -/
def assocUpdate {α β : Type} [DecidableEq α] (k : α) (v : β) : List (α × β) → List (α × β)
  | [] => []
  | (a, b) :: rest => if a = k then (a, v) :: rest else (a, b) :: assocUpdate k v rest

/-- The global host state visible to the embedded entry points. -/
structure GlobalState where
  /-- Registered plugins: id ↦ name (`Global::get().pluginManager`). -/
  plugins : List (Nat × String)
  /-- The single ServerHandler's connection id, when a handler exists
  (`Global::get().sh`). -/
  sh : Option Int
  /-- `Global::get().uiSession`: 0 = not synchronized / no connection. -/
  uiSession : Nat
  /-- `ClientUser::c_qmUsers`: session id ↦ user. -/
  users : List (Nat × ClientUser)
  /-- `Channel::c_qhChannels`: channel id ↦ channel. -/
  channels : List (Int × Channel)
  /-- `Global::get().db` blob store: hash ↦ blob (absent hash yields ""). -/
  dbBlobs : List (String × String)
  /-- `Global::get().s`. -/
  s : Settings
  /-- `Global::get().ao`: the audio output's playSample(path, volume)
  success predicate, when audio output exists. -/
  ao : Option (String → Rat → Bool)
  /-- `MumbleAPI::m_curator.m_entries`: address ↦ entry. -/
  curator : List (Nat × CuratorEntry)
  /-- Live heap blocks lent to plugins: address ↦ contents. -/
  heap : List (Nat × HeapVal)
  /-- Messages delivered to the logging sink by `log`. -/
  logEntries : List (String × String)

/-- `PluginManager::pluginExists`. -/
def pluginExists (st : GlobalState) (id : Nat) : Bool :=
  (assocLookup id st.plugins).isSome

/-- `PluginManager::getPlugin`, returning the plugin's name handle. -/
def getPlugin (st : GlobalState) (id : Nat) : Option String :=
  assocLookup id st.plugins

/-- `Database::blob`: an unknown hash yields an empty byte array. -/
def dbBlob (st : GlobalState) (hash : String) : String :=
  (assocLookup hash st.dbBlobs).getD ""

/-- `ClientUser::get`. -/
def ClientUser.get (st : GlobalState) (userID : Nat) : Option ClientUser :=
  assocLookup userID st.users

/-- `Channel::get`. -/
def Channel.get (st : GlobalState) (channelID : Int) : Option Channel :=
  assocLookup channelID st.channels

/-- Deterministic model of `malloc`: a fresh address above every live block. -/
def freshPtr (st : GlobalState) : Nat :=
  (st.heap.map Prod.fst).foldr max 0 + 1

/-- Invoking a stored deleter on an address: `defaultDeleter` frees the block. -/
def invokeDeleter (_d : Deleter) (ptr : Nat) (st : GlobalState) : GlobalState :=
  { st with heap := assocErase ptr st.heap }

/-- `API::APIPromise`: cancelled flag and single-assignment result slot.
`setCount` counts `set_value` calls so that at-most-once delivery is a
provable property rather than an assumption. -/
structure APIPromise where
  m_cancelled : Bool
  m_value : Option mumble_error_t
  setCount : Nat
  deriving DecidableEq, Repr

/-- `APIPromise::set_value`. -/
def APIPromise.set_value (p : APIPromise) (v : mumble_error_t) : APIPromise :=
  { p with m_value := some v, setCount := p.setCount + 1 }

/-- `APIPromise::cancel`. -/
def APIPromise.cancel (p : APIPromise) : APIPromise :=
  { p with m_cancelled := true }

/-- `APIPromise::isCancelled`. -/
def APIPromise.isCancelled (p : APIPromise) : Bool :=
  p.m_cancelled

/-- A freshly constructed promise (std::promise with no shared value). -/
def freshPromise : APIPromise :=
  { m_cancelled := false, m_value := none, setCount := 0 }

/-- The out-parameter writes an entry point performs (written only on the
paths the source writes them on). -/
inductive APIOutput where
  | outNone
  | outConnection (c : Int)
  | outBool (b : Bool)
  | outUserID (u : Nat)
  | outPtr (p : Nat)
  | outPtrCount (p : Nat) (count : Nat)
  | outInt (i : Int)
  | outDouble (d : Rat)
  deriving DecidableEq, Repr

/-- Result of running one dispatcher entry body: post-state, post-promise,
out-parameter writes. -/
abbrev DispatchResult := GlobalState × APIPromise × APIOutput

/-- The `EXIT_WITH(code)` macro: write the code into the promise and return. -/
def EXIT_WITH (st : GlobalState) (promise : APIPromise) (code : mumble_error_t) :
    DispatchResult :=
  (st, promise.set_value code, APIOutput.outNone)

/-- The `VERIFY_PLUGIN_ID(id)` macro: exit with `MUMBLE_EC_INVALID_PLUGIN_ID`
when the calling plugin is not registered, otherwise continue with `k`. -/
def VERIFY_PLUGIN_ID (st : GlobalState) (promise : APIPromise) (id : Nat)
    (k : DispatchResult) : DispatchResult :=
  if pluginExists st id then k else EXIT_WITH st promise MUMBLE_EC_INVALID_PLUGIN_ID

/-- The `VERIFY_CONNECTION(connection)` macro: exit with
`MUMBLE_EC_CONNECTION_NOT_FOUND` unless a ServerHandler exists and its
connection id equals the supplied handle. -/
def VERIFY_CONNECTION (st : GlobalState) (promise : APIPromise) (connection : Int)
    (k : DispatchResult) : DispatchResult :=
  if st.sh = some connection then k else EXIT_WITH st promise MUMBLE_EC_CONNECTION_NOT_FOUND

/-- The `ENSURE_CONNECTION_SYNCHRONIZED(connection)` macro: exit with
`MUMBLE_EC_CONNECTION_UNSYNCHRONIZED` while `uiSession` is zero. -/
def ENSURE_CONNECTION_SYNCHRONIZED (st : GlobalState) (promise : APIPromise)
    (k : DispatchResult) : DispatchResult :=
  if st.uiSession = 0 then EXIT_WITH st promise MUMBLE_EC_CONNECTION_UNSYNCHRONIZED else k

/-- The repeated malloc + strcpy + curator-insert pattern of the
string-returning entry points: allocates a fresh buffer holding `contents`
and registers it with the curator under `functionName`. Returns the new
state and the buffer address. -/
def allocateString (st : GlobalState) (contents : String) (callerID : Nat)
    (functionName : String) : GlobalState × Nat :=
  let nameArray := freshPtr st
  let st := { st with heap := (nameArray, HeapVal.strVal contents) :: st.heap }
  let st := { st with
    curator := assocInsert nameArray
      ⟨Deleter.defaultDeleter, callerID, functionName⟩ st.curator }
  (st, nameArray)

/-- Same allocate + register pattern for id-array buffers
(`getAllUsers` / `getAllChannels`). -/
def allocateIds (st : GlobalState) (contents : List Nat) (callerID : Nat)
    (functionName : String) : GlobalState × Nat :=
  let idArray := freshPtr st
  let st := { st with heap := (idArray, HeapVal.idsVal contents) :: st.heap }
  let st := { st with
    curator := assocInsert idArray
      ⟨Deleter.defaultDeleter, callerID, functionName⟩ st.curator }
  (st, idArray)

/-- `MumbleAPI::freeMemory_v_1_0_x`: deliberately performs no plugin-id
validation ("Don't verify plugin ID here to avoid memory leaks"); frees and
untracks a curator-tracked pointer, otherwise reports pointer-not-found. -/
def MumbleAPI.freeMemory_v_1_0_x (callerID : Nat) (ptr : Nat) (st : GlobalState)
    (promise : APIPromise) : DispatchResult :=
  if promise.isCancelled then (st, promise, APIOutput.outNone)
  else
    -- UNUSED(callerID)
    match assocLookup ptr st.curator with
    | some entry =>
      let st := invokeDeleter entry.m_deleter ptr st
      let st := { st with curator := assocErase ptr st.curator }
      EXIT_WITH st promise MUMBLE_STATUS_OK
    | none => EXIT_WITH st promise MUMBLE_EC_POINTER_NOT_FOUND

/-- `MumbleAPI::getActiveServerConnection_v_1_0_x`. -/
def MumbleAPI.getActiveServerConnection_v_1_0_x (callerID : Nat) (st : GlobalState)
    (promise : APIPromise) : DispatchResult :=
  if promise.isCancelled then (st, promise, APIOutput.outNone)
  else
    VERIFY_PLUGIN_ID st promise callerID <|
    match st.sh with
    | some connID => (st, promise.set_value MUMBLE_STATUS_OK, APIOutput.outConnection connID)
    | none => EXIT_WITH st promise MUMBLE_EC_NO_ACTIVE_CONNECTION

/-- `MumbleAPI::isConnectionSynchronized_v_1_0_x`. -/
def MumbleAPI.isConnectionSynchronized_v_1_0_x (callerID : Nat) (connection : Int)
    (st : GlobalState) (promise : APIPromise) : DispatchResult :=
  if promise.isCancelled then (st, promise, APIOutput.outNone)
  else
    VERIFY_PLUGIN_ID st promise callerID <|
    VERIFY_CONNECTION st promise connection <|
    (st, promise.set_value MUMBLE_STATUS_OK, APIOutput.outBool (st.uiSession ≠ 0))

/-- `MumbleAPI::getLocalUserID_v_1_0_x`. -/
def MumbleAPI.getLocalUserID_v_1_0_x (callerID : Nat) (connection : Int)
    (st : GlobalState) (promise : APIPromise) : DispatchResult :=
  if promise.isCancelled then (st, promise, APIOutput.outNone)
  else
    VERIFY_PLUGIN_ID st promise callerID <|
    VERIFY_CONNECTION st promise connection <|
    ENSURE_CONNECTION_SYNCHRONIZED st promise <|
    (st, promise.set_value MUMBLE_STATUS_OK, APIOutput.outUserID st.uiSession)

/-- `MumbleAPI::getUserName_v_1_0_x`: on success allocates a buffer holding
the user's UTF-8 name, registers it with the curator and returns its
address. -/
def MumbleAPI.getUserName_v_1_0_x (callerID : Nat) (connection : Int) (userID : Nat)
    (st : GlobalState) (promise : APIPromise) : DispatchResult :=
  if promise.isCancelled then (st, promise, APIOutput.outNone)
  else
    VERIFY_PLUGIN_ID st promise callerID <|
    VERIFY_CONNECTION st promise connection <|
    ENSURE_CONNECTION_SYNCHRONIZED st promise <|
    match ClientUser.get st userID with
    | some user =>
      let (st, nameArray) := allocateString st user.qsName callerID "getUserName"
      (st, promise.set_value MUMBLE_STATUS_OK, APIOutput.outPtr nameArray)
    | none => EXIT_WITH st promise MUMBLE_EC_USER_NOT_FOUND

/-- `MumbleAPI::getChannelName_v_1_0_x`. -/
def MumbleAPI.getChannelName_v_1_0_x (callerID : Nat) (connection : Int)
    (channelID : Int) (st : GlobalState) (promise : APIPromise) : DispatchResult :=
  if promise.isCancelled then (st, promise, APIOutput.outNone)
  else
    VERIFY_PLUGIN_ID st promise callerID <|
    VERIFY_CONNECTION st promise connection <|
    ENSURE_CONNECTION_SYNCHRONIZED st promise <|
    match Channel.get st channelID with
    | some channel =>
      let (st, nameArray) := allocateString st channel.qsName callerID "getChannelName"
      (st, promise.set_value MUMBLE_STATUS_OK, APIOutput.outPtr nameArray)
    | none => EXIT_WITH st promise MUMBLE_EC_CHANNEL_NOT_FOUND

/-- `MumbleAPI::getAllUsers_v_1_0_x`: allocates an array of all user session
ids, registers it with the curator and returns address and count. -/
def MumbleAPI.getAllUsers_v_1_0_x (callerID : Nat) (connection : Int)
    (st : GlobalState) (promise : APIPromise) : DispatchResult :=
  if promise.isCancelled then (st, promise, APIOutput.outNone)
  else
    VERIFY_PLUGIN_ID st promise callerID <|
    VERIFY_CONNECTION st promise connection <|
    ENSURE_CONNECTION_SYNCHRONIZED st promise <|
    let ids := st.users.map Prod.fst
    let (st, userIDs) := allocateIds st ids callerID "getAllUsers"
    (st, promise.set_value MUMBLE_STATUS_OK, APIOutput.outPtrCount userIDs ids.length)

/-- `MumbleAPI::getUserComment_v_1_0_x`: fetches and caches the comment blob
on demand; an empty blob for a present hash means the comment has not been
synchronized to this client yet. -/
def MumbleAPI.getUserComment_v_1_0_x (callerID : Nat) (connection : Int) (userID : Nat)
    (st : GlobalState) (promise : APIPromise) : DispatchResult :=
  if promise.isCancelled then (st, promise, APIOutput.outNone)
  else
    VERIFY_PLUGIN_ID st promise callerID <|
    VERIFY_CONNECTION st promise connection <|
    ENSURE_CONNECTION_SYNCHRONIZED st promise <|
    match ClientUser.get st userID with
    | none => EXIT_WITH st promise MUMBLE_EC_USER_NOT_FOUND
    | some user =>
      if user.qsComment = "" ∧ user.qbaCommentHash ≠ "" then
        let fetched := dbBlob st user.qbaCommentHash
        let user := { user with qsComment := fetched }
        let st := { st with users := assocUpdate userID user st.users }
        if user.qsComment = "" then
          -- The user's comment hasn't been synchronized to this client yet
          EXIT_WITH st promise MUMBLE_EC_UNSYNCHRONIZED_BLOB
        else
          let (st, nameArray) := allocateString st user.qsComment callerID "getUserComment"
          (st, promise.set_value MUMBLE_STATUS_OK, APIOutput.outPtr nameArray)
      else
        let (st, nameArray) := allocateString st user.qsComment callerID "getUserComment"
        (st, promise.set_value MUMBLE_STATUS_OK, APIOutput.outPtr nameArray)

/-- `MumbleAPI::getChannelDescription_v_1_0_x`: analogous on-demand blob
fetch for channel descriptions. -/
def MumbleAPI.getChannelDescription_v_1_0_x (callerID : Nat) (connection : Int)
    (channelID : Int) (st : GlobalState) (promise : APIPromise) : DispatchResult :=
  if promise.isCancelled then (st, promise, APIOutput.outNone)
  else
    VERIFY_PLUGIN_ID st promise callerID <|
    VERIFY_CONNECTION st promise connection <|
    ENSURE_CONNECTION_SYNCHRONIZED st promise <|
    match Channel.get st channelID with
    | none => EXIT_WITH st promise MUMBLE_EC_CHANNEL_NOT_FOUND
    | some channel =>
      if channel.qsDesc = "" ∧ channel.qbaDescHash ≠ "" then
        let fetched := dbBlob st channel.qbaDescHash
        let channel := { channel with qsDesc := fetched }
        let st := { st with channels := assocUpdate channelID channel st.channels }
        if channel.qsDesc = "" then
          -- The channel's description hasn't been synchronized to this client yet
          EXIT_WITH st promise MUMBLE_EC_UNSYNCHRONIZED_BLOB
        else
          let (st, nameArray) :=
            allocateString st channel.qsDesc callerID "getChannelDescription"
          (st, promise.set_value MUMBLE_STATUS_OK, APIOutput.outPtr nameArray)
      else
        let (st, nameArray) :=
          allocateString st channel.qsDesc callerID "getChannelDescription"
        (st, promise.set_value MUMBLE_STATUS_OK, APIOutput.outPtr nameArray)

/-- The subset of `QMetaType::Type` tags the settings accessors compare
against. -/
inductive QMetaTypeTag where
  | TBool
  | TInt
  | TDouble
  | TQString
  deriving DecidableEq, Repr

/-- The runtime type tag of a QVariant (`var.type()`). -/
def QVariant.qtype : QVariant → QMetaTypeTag
  | .QInt _ => .TInt
  | .QDouble _ => .TDouble
  | .QBool _ => .TBool
  | .QString _ => .TQString

/-- `QVariant::toInt` as used after a successful Int type check. -/
def QVariant.toInt : QVariant → Int
  | .QInt i => i
  | _ => 0

/-- `QVariant::toDouble` as used after a successful Double type check. -/
def QVariant.toDouble : QVariant → Rat
  | .QDouble d => d
  | _ => 0

/-- `QVariant::toBool` as used after a successful Bool type check. -/
def QVariant.toBool : QVariant → Bool
  | .QBool b => b
  | _ => false

/-- `QVariant::toString` as used after a successful QString type check. -/
def QVariant.toString : QVariant → String
  | .QString s => s
  | _ => ""

/-- `getMumbleSettingHelper`: maps a settings key to the live value, already
cast to the target type of its associated accessor (the voice-hold int, the
six float fields cast to double). `MUMBLE_SK_INVALID` yields an invalid
QVariant, modelled as `none`. -/
def getMumbleSettingHelper (st : GlobalState) (key : mumble_settings_key_t) :
    Option QVariant :=
  match key with
  | MUMBLE_SK_AUDIO_INPUT_VOICE_HOLD => some (QVariant.QInt st.s.iVoiceHold)
  | MUMBLE_SK_AUDIO_INPUT_VAD_SILENCE_THRESHOLD => some (QVariant.QDouble st.s.fVADmin)
  | MUMBLE_SK_AUDIO_INPUT_VAD_SPEECH_THRESHOLD => some (QVariant.QDouble st.s.fVADmax)
  | MUMBLE_SK_AUDIO_OUTPUT_PA_MINIMUM_DISTANCE =>
    some (QVariant.QDouble st.s.fAudioMinDistance)
  | MUMBLE_SK_AUDIO_OUTPUT_PA_MAXIMUM_DISTANCE =>
    some (QVariant.QDouble st.s.fAudioMaxDistance)
  | MUMBLE_SK_AUDIO_OUTPUT_PA_BLOOM => some (QVariant.QDouble st.s.fAudioBloom)
  | MUMBLE_SK_AUDIO_OUTPUT_PA_MINIMUM_VOLUME =>
    some (QVariant.QDouble st.s.fAudioMaxDistVolume)
  | MUMBLE_SK_INVALID => none

/-- `MumbleAPI::getMumbleSetting_bool_v_1_0_x`. -/
def MumbleAPI.getMumbleSetting_bool_v_1_0_x (callerID : Nat)
    (key : mumble_settings_key_t) (st : GlobalState) (promise : APIPromise) :
    DispatchResult :=
  if promise.isCancelled then (st, promise, APIOutput.outNone)
  else
    VERIFY_PLUGIN_ID st promise callerID <|
    match getMumbleSettingHelper st key with
    | none => EXIT_WITH st promise MUMBLE_EC_UNKNOWN_SETTINGS_KEY
    | some value =>
      if value.qtype ≠ QMetaTypeTag.TBool then
        EXIT_WITH st promise MUMBLE_EC_WRONG_SETTINGS_TYPE
      else
        (st, promise.set_value MUMBLE_STATUS_OK, APIOutput.outBool value.toBool)

/-- `MumbleAPI::getMumbleSetting_int_v_1_0_x`. -/
def MumbleAPI.getMumbleSetting_int_v_1_0_x (callerID : Nat)
    (key : mumble_settings_key_t) (st : GlobalState) (promise : APIPromise) :
    DispatchResult :=
  if promise.isCancelled then (st, promise, APIOutput.outNone)
  else
    VERIFY_PLUGIN_ID st promise callerID <|
    match getMumbleSettingHelper st key with
    | none => EXIT_WITH st promise MUMBLE_EC_UNKNOWN_SETTINGS_KEY
    | some value =>
      if value.qtype ≠ QMetaTypeTag.TInt then
        EXIT_WITH st promise MUMBLE_EC_WRONG_SETTINGS_TYPE
      else
        (st, promise.set_value MUMBLE_STATUS_OK, APIOutput.outInt value.toInt)

/-- `MumbleAPI::getMumbleSetting_double_v_1_0_x`. -/
def MumbleAPI.getMumbleSetting_double_v_1_0_x (callerID : Nat)
    (key : mumble_settings_key_t) (st : GlobalState) (promise : APIPromise) :
    DispatchResult :=
  if promise.isCancelled then (st, promise, APIOutput.outNone)
  else
    VERIFY_PLUGIN_ID st promise callerID <|
    match getMumbleSettingHelper st key with
    | none => EXIT_WITH st promise MUMBLE_EC_UNKNOWN_SETTINGS_KEY
    | some value =>
      if value.qtype ≠ QMetaTypeTag.TDouble then
        EXIT_WITH st promise MUMBLE_EC_WRONG_SETTINGS_TYPE
      else
        (st, promise.set_value MUMBLE_STATUS_OK, APIOutput.outDouble value.toDouble)

/-- `MumbleAPI::getMumbleSetting_string_v_1_0_x`: on success allocates a
buffer holding the value and registers it with the curator. -/
def MumbleAPI.getMumbleSetting_string_v_1_0_x (callerID : Nat)
    (key : mumble_settings_key_t) (st : GlobalState) (promise : APIPromise) :
    DispatchResult :=
  if promise.isCancelled then (st, promise, APIOutput.outNone)
  else
    VERIFY_PLUGIN_ID st promise callerID <|
    match getMumbleSettingHelper st key with
    | none => EXIT_WITH st promise MUMBLE_EC_UNKNOWN_SETTINGS_KEY
    | some value =>
      if value.qtype ≠ QMetaTypeTag.TQString then
        EXIT_WITH st promise MUMBLE_EC_WRONG_SETTINGS_TYPE
      else
        let (st, valueArray) :=
          allocateString st value.toString callerID "getMumbleSetting_string"
        (st, promise.set_value MUMBLE_STATUS_OK, APIOutput.outPtr valueArray)

/-- `MumbleAPI::log_v_1_0_x`: verifies the plugin manually via `getPlugin`
(it needs the handle for the message prefix) and hands the message to the
logging sink. -/
def MumbleAPI.log_v_1_0_x (callerID : Nat) (message : String) (st : GlobalState)
    (promise : APIPromise) : DispatchResult :=
  if promise.isCancelled then (st, promise, APIOutput.outNone)
  else
    match getPlugin st callerID with
    | none => EXIT_WITH st promise MUMBLE_EC_INVALID_PLUGIN_ID
    | some pluginName =>
      let st := { st with logEntries := st.logEntries ++ [(pluginName, message)] }
      EXIT_WITH st promise MUMBLE_STATUS_OK

/-- `MumbleAPI::playSample_v_1_2_x`: requires audio output; plays the sample
at the given volume. -/
def MumbleAPI.playSample_v_1_2_x (callerID : Nat) (samplePath : String) (volume : Rat)
    (st : GlobalState) (promise : APIPromise) : DispatchResult :=
  if promise.isCancelled then (st, promise, APIOutput.outNone)
  else
    VERIFY_PLUGIN_ID st promise callerID <|
    match st.ao with
    | none => EXIT_WITH st promise MUMBLE_EC_AUDIO_NOT_AVAILABLE
    | some playSample =>
      if playSample samplePath volume then EXIT_WITH st promise MUMBLE_STATUS_OK
      else EXIT_WITH st promise MUMBLE_EC_INVALID_SAMPLE

/-- `MumbleAPI::playSample_v_1_0_x`: delegates to the v1.2 entry with the
default volume 1.0f. -/
def MumbleAPI.playSample_v_1_0_x (callerID : Nat) (samplePath : String)
    (st : GlobalState) (promise : APIPromise) : DispatchResult :=
  MumbleAPI.playSample_v_1_2_x callerID samplePath 1 st promise

/-- The catalogue of embedded dispatcher entry points, each carrying its
call arguments. -/
inductive APICall where
  | freeMemory (callerID : Nat) (ptr : Nat)
  | getActiveServerConnection (callerID : Nat)
  | isConnectionSynchronized (callerID : Nat) (connection : Int)
  | getLocalUserID (callerID : Nat) (connection : Int)
  | getUserName (callerID : Nat) (connection : Int) (userID : Nat)
  | getChannelName (callerID : Nat) (connection : Int) (channelID : Int)
  | getAllUsers (callerID : Nat) (connection : Int)
  | getUserComment (callerID : Nat) (connection : Int) (userID : Nat)
  | getChannelDescription (callerID : Nat) (connection : Int) (channelID : Int)
  | getMumbleSetting_bool (callerID : Nat) (key : mumble_settings_key_t)
  | getMumbleSetting_int (callerID : Nat) (key : mumble_settings_key_t)
  | getMumbleSetting_double (callerID : Nat) (key : mumble_settings_key_t)
  | getMumbleSetting_string (callerID : Nat) (key : mumble_settings_key_t)
  | log (callerID : Nat) (message : String)
  | playSample_1_0 (callerID : Nat) (samplePath : String)
  | playSample_1_2 (callerID : Nat) (samplePath : String) (volume : Rat)
  deriving DecidableEq

/-- The plugin id a call is issued with. -/
def APICall.callerID : APICall → Nat
  | .freeMemory cid _ => cid
  | .getActiveServerConnection cid => cid
  | .isConnectionSynchronized cid _ => cid
  | .getLocalUserID cid _ => cid
  | .getUserName cid _ _ => cid
  | .getChannelName cid _ _ => cid
  | .getAllUsers cid _ => cid
  | .getUserComment cid _ _ => cid
  | .getChannelDescription cid _ _ => cid
  | .getMumbleSetting_bool cid _ => cid
  | .getMumbleSetting_int cid _ => cid
  | .getMumbleSetting_double cid _ => cid
  | .getMumbleSetting_string cid _ => cid
  | .log cid _ => cid
  | .playSample_1_0 cid _ => cid
  | .playSample_1_2 cid _ _ => cid

/-- Whether the call is the free-memory entry point. -/
def APICall.isFreeMemory : APICall → Bool
  | .freeMemory _ _ => true
  | _ => false

/-- Whether the call returns a newly allocated string buffer or id-array
buffer (the calls whose success hands a curator-tracked pointer to the
plugin). -/
def APICall.isStringOrArrayReturning : APICall → Bool
  | .getUserName _ _ _ => true
  | .getChannelName _ _ _ => true
  | .getAllUsers _ _ => true
  | .getUserComment _ _ _ => true
  | .getChannelDescription _ _ _ => true
  | .getMumbleSetting_string _ _ => true
  | _ => false

/-- Runs the dispatcher entry point named by the call. -/
def runAPICall (c : APICall) (st : GlobalState) (promise : APIPromise) :
    DispatchResult :=
  match c with
  | .freeMemory cid ptr => MumbleAPI.freeMemory_v_1_0_x cid ptr st promise
  | .getActiveServerConnection cid =>
    MumbleAPI.getActiveServerConnection_v_1_0_x cid st promise
  | .isConnectionSynchronized cid conn =>
    MumbleAPI.isConnectionSynchronized_v_1_0_x cid conn st promise
  | .getLocalUserID cid conn => MumbleAPI.getLocalUserID_v_1_0_x cid conn st promise
  | .getUserName cid conn uid => MumbleAPI.getUserName_v_1_0_x cid conn uid st promise
  | .getChannelName cid conn chid =>
    MumbleAPI.getChannelName_v_1_0_x cid conn chid st promise
  | .getAllUsers cid conn => MumbleAPI.getAllUsers_v_1_0_x cid conn st promise
  | .getUserComment cid conn uid =>
    MumbleAPI.getUserComment_v_1_0_x cid conn uid st promise
  | .getChannelDescription cid conn chid =>
    MumbleAPI.getChannelDescription_v_1_0_x cid conn chid st promise
  | .getMumbleSetting_bool cid key =>
    MumbleAPI.getMumbleSetting_bool_v_1_0_x cid key st promise
  | .getMumbleSetting_int cid key =>
    MumbleAPI.getMumbleSetting_int_v_1_0_x cid key st promise
  | .getMumbleSetting_double cid key =>
    MumbleAPI.getMumbleSetting_double_v_1_0_x cid key st promise
  | .getMumbleSetting_string cid key =>
    MumbleAPI.getMumbleSetting_string_v_1_0_x cid key st promise
  | .log cid msg => MumbleAPI.log_v_1_0_x cid msg st promise
  | .playSample_1_0 cid path => MumbleAPI.playSample_v_1_0_x cid path st promise
  | .playSample_1_2 cid path volume =>
    MumbleAPI.playSample_v_1_2_x cid path volume st promise

/-!
The synchronous C wrapper (one per entry point, all textually identical):
create a promise, invoke the dispatcher entry, wait up to 800 ms, on
timeout cancel and re-check with a zero wait, otherwise synthesize
`MUMBLE_EC_API_REQUEST_TIMEOUT`.

The dispatcher body is queued to the main thread and runs as one atomic
block under the promise's lock; `cancel()` takes the same lock, so the
dispatcher body is serialized against it.  The scheduling freedom that
remains is WHERE the dispatcher body lands relative to the wrapper's four
steps (wait / cancel / re-check / synthesize), captured by `DPos`.
-/

/-- Where the queued dispatcher body executes relative to the wrapper's
steps: before the 800 ms wait expires, after the wait but before
`cancel()`, between `cancel()` and the zero-duration re-check, or after the
wrapper synthesized its timeout result. -/
inductive DPos where
  | beforeWait
  | beforeCancel
  | beforeRecheck
  | afterRecheck
  deriving DecidableEq, Repr

/-- One atomic execution of the queued dispatcher body (state and promise
only; the out-parameter writes are part of the state transition in the
full model and irrelevant to the handoff protocol). -/
def dispatchStep (c : APICall) (sp : GlobalState × APIPromise) :
    GlobalState × APIPromise :=
  ((runAPICall c sp.1 sp.2).1, (runAPICall c sp.1 sp.2).2.1)

/-- The synchronous call wrapper around a dispatcher entry, with the
dispatcher body scheduled at position `pos`.  Mirrors the C wrapper:
`wait_for(800ms)`; on timeout `promise->cancel()`; `wait_for(0ms)`; if
still not ready `promise->set_value(MUMBLE_EC_API_REQUEST_TIMEOUT)`.
Readiness of the future is `m_value.isSome`. -/
def runWrapper (c : APICall) (st : GlobalState) (pos : DPos) :
    GlobalState × APIPromise :=
  let promise := freshPromise
  let (st1, p1) :=
    if pos = DPos.beforeWait then dispatchStep c (st, promise) else (st, promise)
  if p1.m_value.isSome then (st1, p1)
  else
    let (st2, p2) :=
      if pos = DPos.beforeCancel then dispatchStep c (st1, p1) else (st1, p1)
    let p3 := p2.cancel
    let (st3, p4) :=
      if pos = DPos.beforeRecheck then dispatchStep c (st2, p3) else (st2, p3)
    if p4.m_value.isSome then (st3, p4)
    else
      let p5 := p4.set_value MUMBLE_EC_API_REQUEST_TIMEOUT
      let (st4, p6) :=
        if pos = DPos.afterRecheck then dispatchStep c (st3, p5) else (st3, p5)
      (st4, p6)

/-!
The Speex noise-cancel migration fragment of `Settings::load`
(src/unnamed/part_000, lines 731-738).  `SAVELOAD(var, name)` reads the
stored value under `name`, falling back to the variable's current value
when the key is unset.
-/

/-- `QSettings::value(name, default)` over an association-list store of
integer settings. -/
def settingsValue (store : List (String × Int)) (name : String) (deflt : Int) : Int :=
  (assocLookup name store).getD deflt

/-- The Speex noise-cancel fragment of `Settings::load`: loads the legacy
key (local default 0) and the renamed key (default: the field's current
value), then keeps the more negative of the two via `std::min`. Returns
the resulting `iSpeexNoiseCancelStrength`. -/
def Settings.load_speexNoiseCancel (store : List (String × Int))
    (iSpeexNoiseCancelStrength : Int) : Int :=
  let oldNoiseSuppress : Int := 0
  let oldNoiseSuppress := settingsValue store "audio/noisesupress" oldNoiseSuppress
  let iSpeexNoiseCancelStrength :=
    settingsValue store "audio/speexNoiseCancelStrength" iSpeexNoiseCancelStrength
  -- Select the most negative of the 2 (one is expected to be zero as it is
  -- unset). This is for compatibility as we have renamed the setting.
  min oldNoiseSuppress iSpeexNoiseCancelStrength

/-!  Concrete states used by the witnesses. -/

/-- Default settings values (arbitrary but fixed). -/
def sampleSettings : Settings :=
  { iVoiceHold := 50
    fVADmin := 1/2
    fVADmax := 3/4
    fAudioMinDistance := 1
    fAudioMaxDistance := 15
    fAudioBloom := 1/2
    fAudioMaxDistVolume := 1/5 }

/-- A host state with no plugins, no connection and nothing tracked. -/
def emptyState : GlobalState :=
  { plugins := []
    sh := none
    uiSession := 0
    users := []
    channels := []
    dbBlobs := []
    s := sampleSettings
    ao := none
    curator := []
    heap := []
    logEntries := [] }

/-- A host state with plugin 3 registered, an active synchronized
connection 0, user 42 "Alice" with an unsynchronized comment blob, and
channel 1 with an unsynchronized description blob. -/
def sampleState : GlobalState :=
  { plugins := [(3, "TestPlugin")]
    sh := some 0
    uiSession := 7
    users := [(42, { qsName := "Alice", qsComment := "", qbaCommentHash := "h1" })]
    channels := [(1, { qsName := "Root", qsDesc := "", qbaDescHash := "h2" })]
    dbBlobs := []
    s := sampleSettings
    ao := none
    curator := []
    heap := []
    logEntries := [] }

/-- `sampleState` after a `getUserName` call lent buffer 1 ("Alice") to
plugin 3: the curator tracks pointer 1. -/
def trackedState : GlobalState :=
  { sampleState with
    curator := [(1, ⟨Deleter.defaultDeleter, 3, "getUserName"⟩)]
    heap := [(1, HeapVal.strVal "Alice")] }

/-!  Helper lemmas. -/

/-- Every dispatcher entry body that observes a cancelled promise abandons
the operation: no state change, no out-parameter write, no `set_value`. -/
theorem runAPICall_cancelled (c : APICall) (st : GlobalState) (promise : APIPromise)
    (h : promise.m_cancelled = true) :
    runAPICall c st promise = (st, promise, APIOutput.outNone) := by
  cases c <;>
    simp [runAPICall, MumbleAPI.freeMemory_v_1_0_x,
      MumbleAPI.getActiveServerConnection_v_1_0_x,
      MumbleAPI.isConnectionSynchronized_v_1_0_x, MumbleAPI.getLocalUserID_v_1_0_x,
      MumbleAPI.getUserName_v_1_0_x, MumbleAPI.getChannelName_v_1_0_x,
      MumbleAPI.getAllUsers_v_1_0_x, MumbleAPI.getUserComment_v_1_0_x,
      MumbleAPI.getChannelDescription_v_1_0_x,
      MumbleAPI.getMumbleSetting_bool_v_1_0_x, MumbleAPI.getMumbleSetting_int_v_1_0_x,
      MumbleAPI.getMumbleSetting_double_v_1_0_x,
      MumbleAPI.getMumbleSetting_string_v_1_0_x, MumbleAPI.log_v_1_0_x,
      MumbleAPI.playSample_v_1_0_x, MumbleAPI.playSample_v_1_2_x,
      APIPromise.isCancelled, h]

/-- Every dispatcher entry body that observes an uncancelled promise
terminates by writing exactly one value into the promise. -/
theorem runAPICall_sets (c : APICall) (st : GlobalState) (promise : APIPromise)
    (h : promise.m_cancelled = false) :
    ∃ v st' out, runAPICall c st promise = (st', promise.set_value v, out) := by
  cases c <;>
    simp only [runAPICall, MumbleAPI.freeMemory_v_1_0_x,
      MumbleAPI.getActiveServerConnection_v_1_0_x,
      MumbleAPI.isConnectionSynchronized_v_1_0_x, MumbleAPI.getLocalUserID_v_1_0_x,
      MumbleAPI.getUserName_v_1_0_x, MumbleAPI.getChannelName_v_1_0_x,
      MumbleAPI.getAllUsers_v_1_0_x, MumbleAPI.getUserComment_v_1_0_x,
      MumbleAPI.getChannelDescription_v_1_0_x,
      MumbleAPI.getMumbleSetting_bool_v_1_0_x, MumbleAPI.getMumbleSetting_int_v_1_0_x,
      MumbleAPI.getMumbleSetting_double_v_1_0_x,
      MumbleAPI.getMumbleSetting_string_v_1_0_x, MumbleAPI.log_v_1_0_x,
      MumbleAPI.playSample_v_1_0_x, MumbleAPI.playSample_v_1_2_x,
      VERIFY_PLUGIN_ID, VERIFY_CONNECTION, ENSURE_CONNECTION_SYNCHRONIZED, EXIT_WITH,
      APIPromise.isCancelled, h, Bool.false_eq_true, if_false] <;>
    (repeat' split) <;> exact ⟨_, _, _, rfl⟩

/-- A key that is not among an association list's keys has no binding. -/
theorem assocLookup_eq_none_of_not_mem {α β : Type} [DecidableEq α] (k : α)
    (l : List (α × β)) (h : k ∉ l.map Prod.fst) : assocLookup k l = none := by
  induction l with
  | nil => rfl
  | cons hd tl ih =>
    simp only [List.map_cons, List.mem_cons] at h
    push_neg at h
    have hne : ¬hd.1 = k := fun he => h.1 he.symm
    simp [assocLookup, hne, ih h.2]

/-- A key with no binding is not among the keys. -/
theorem not_mem_of_assocLookup_eq_none {α β : Type} [DecidableEq α] {k : α}
    {l : List (α × β)} (h : assocLookup k l = none) : k ∉ l.map Prod.fst := by
  induction l with
  | nil => simp
  | cons hd tl ih =>
    simp only [assocLookup] at h
    by_cases he : hd.1 = k
    · simp [he] at h
    · simp only [he, if_false] at h
      simp only [List.map_cons, List.mem_cons]
      rintro (hk | hk)
      · exact he hk.symm
      · exact ih h hk

/-- Erasing a key from a duplicate-free association list removes its
binding. -/
theorem assocLookup_assocErase_self {α β : Type} [DecidableEq α] (k : α)
    (l : List (α × β)) (h : (l.map Prod.fst).Nodup) :
    assocLookup k (assocErase k l) = none := by
  induction l with
  | nil => rfl
  | cons hd tl ih =>
    simp only [List.map_cons, List.nodup_cons] at h
    by_cases he : hd.1 = k
    · subst he
      simpa [assocErase] using assocLookup_eq_none_of_not_mem hd.1 tl h.1
    · simp [assocErase, he, assocLookup, ih h.2]

/-- Erasing a key leaves other keys' bindings unchanged. -/
theorem assocLookup_assocErase_ne {α β : Type} [DecidableEq α] {k k' : α}
    (l : List (α × β)) (h : k' ≠ k) :
    assocLookup k' (assocErase k l) = assocLookup k' l := by
  induction l with
  | nil => rfl
  | cons hd tl ih =>
    by_cases he : hd.1 = k
    · subst he
      have hne : ¬hd.1 = k' := fun hk => h hk.symm
      simp [assocErase, assocLookup, hne]
    · simp only [assocErase, he, if_false]
      by_cases he' : hd.1 = k'
      · simp [assocLookup, he']
      · simp [assocLookup, he', ih]

/-- Looking up the key just passed to `assocInsert` always finds a binding
(either the fresh one or the pre-existing one the map kept). -/
theorem assocLookup_assocInsert_self {α β : Type} [DecidableEq α] (k : α) (v : β)
    (l : List (α × β)) : (assocLookup k (assocInsert k v l)).isSome := by
  unfold assocInsert
  cases hl : assocLookup k l with
  | some w => simp [hl]
  | none => simp [assocLookup]

/-- `assocInsert` preserves key distinctness. -/
theorem assocInsert_nodup {α β : Type} [DecidableEq α] (k : α) (v : β)
    (l : List (α × β)) (h : (l.map Prod.fst).Nodup) :
    ((assocInsert k v l).map Prod.fst).Nodup := by
  unfold assocInsert
  cases hl : assocLookup k l with
  | some w => exact h
  | none =>
    simp only [List.map_cons, List.nodup_cons]
    exact ⟨not_mem_of_assocLookup_eq_none hl, h⟩

/-- `freeMemory_v_1_0_x` on a tracked pointer: the stored deleter frees the
block, the curator entry is erased, and the call reports success. -/
theorem freeMemory_tracked (cid ptr : Nat) (st : GlobalState) (promise : APIPromise)
    (e : CuratorEntry) (hl : assocLookup ptr st.curator = some e)
    (hc : promise.m_cancelled = false) :
    MumbleAPI.freeMemory_v_1_0_x cid ptr st promise
      = ({ st with heap := assocErase ptr st.heap,
                   curator := assocErase ptr st.curator },
         promise.set_value MUMBLE_STATUS_OK, APIOutput.outNone) := by
  simp [MumbleAPI.freeMemory_v_1_0_x, APIPromise.isCancelled, hc, hl, invokeDeleter,
    EXIT_WITH]

/-- `freeMemory_v_1_0_x` on an untracked pointer: pointer-not-found, state
untouched. -/
theorem freeMemory_untracked (cid ptr : Nat) (st : GlobalState) (promise : APIPromise)
    (hl : assocLookup ptr st.curator = none) (hc : promise.m_cancelled = false) :
    MumbleAPI.freeMemory_v_1_0_x cid ptr st promise
      = (st, promise.set_value MUMBLE_EC_POINTER_NOT_FOUND, APIOutput.outNone) := by
  simp [MumbleAPI.freeMemory_v_1_0_x, APIPromise.isCancelled, hc, hl, EXIT_WITH]

/-- An unregistered plugin id has no plugin handle. -/
theorem getPlugin_eq_none_of_not_exists {st : GlobalState} {id : Nat}
    (h : pluginExists st id = false) : getPlugin st id = none := by
  unfold pluginExists at h
  unfold getPlugin
  cases hl : assocLookup id st.plugins with
  | none => rfl
  | some w => rw [hl] at h; simp at h

/-!  Claim theorems. -/

/-- C3: if a dispatcher entry body observes `isCancelled() = true` while
holding the promise's lock, the operation is abandoned with no side effects
on host state (no curator insertion, no allocation, no mutation, no
out-parameter write) and without calling `set_value` on the promise. -/
theorem C3_cancelled_abandons_without_side_effects (c : APICall) (st : GlobalState)
    (promise : APIPromise) (h : promise.isCancelled = true) :
    runAPICall c st promise = (st, promise, APIOutput.outNone) :=
  runAPICall_cancelled c st promise h

/-- Witness for C3: a cancelled `getUserName` call on the sample state does
nothing at all. -/
theorem C3_cancelled_abandons_without_side_effects_witness :
    runAPICall (APICall.getUserName 3 0 42) sampleState freshPromise.cancel
      = (sampleState, freshPromise.cancel, APIOutput.outNone) :=
  C3_cancelled_abandons_without_side_effects (APICall.getUserName 3 0 42) sampleState
    freshPromise.cancel rfl

/-- C8: the v1.0 sample-playback entry point is exactly the v1.2 entry
point called with the default volume 1.0: same result and same effects for
every plugin id, sample path and host state. -/
theorem C8_playSample_1_0_delegates_to_1_2 (callerID : Nat) (samplePath : String)
    (st : GlobalState) (promise : APIPromise) :
    MumbleAPI.playSample_v_1_0_x callerID samplePath st promise
      = MumbleAPI.playSample_v_1_2_x callerID samplePath 1 st promise := rfl

/-- C9: during settings load, when the renamed key is present the effective
Speex noise-cancel strength is exactly `std::min` of the legacy value
(default 0 when unset) and the renamed key's value. -/
theorem C9_speex_noise_cancel_min (store : List (String × Int))
    (current newVal : Int)
    (hnew : assocLookup "audio/speexNoiseCancelStrength" store = some newVal) :
    Settings.load_speexNoiseCancel store current
      = min ((assocLookup "audio/noisesupress" store).getD 0) newVal := by
  simp [Settings.load_speexNoiseCancel, settingsValue, hnew]

/-- Witness for C9: legacy -10 and renamed -25 yield -25 (the more
negative). -/
theorem C9_speex_noise_cancel_min_witness :
    Settings.load_speexNoiseCancel
      [("audio/noisesupress", -10), ("audio/speexNoiseCancelStrength", -25)] (-30)
      = -25 := by
  have h := C9_speex_noise_cancel_min
    [("audio/noisesupress", -10), ("audio/speexNoiseCancelStrength", -25)] (-30) (-25)
    rfl
  rw [h]; decide

/-- C10: the free-memory entry point performs no plugin-identity
validation: the caller id never influences the result, a curator-tracked
pointer is freed successfully even for an unregistered caller, and only an
untracked pointer yields pointer-not-found. -/
theorem C10_freeMemory_ignores_callerID (cid cid' ptr : Nat) (st : GlobalState)
    (promise : APIPromise) (hc : promise.m_cancelled = false) :
    (MumbleAPI.freeMemory_v_1_0_x cid ptr st promise
       = MumbleAPI.freeMemory_v_1_0_x cid' ptr st promise)
    ∧ (∀ e, assocLookup ptr st.curator = some e →
        MumbleAPI.freeMemory_v_1_0_x cid ptr st promise
          = ({ st with heap := assocErase ptr st.heap,
                       curator := assocErase ptr st.curator },
             promise.set_value MUMBLE_STATUS_OK, APIOutput.outNone))
    ∧ (assocLookup ptr st.curator = none →
        MumbleAPI.freeMemory_v_1_0_x cid ptr st promise
          = (st, promise.set_value MUMBLE_EC_POINTER_NOT_FOUND, APIOutput.outNone)) :=
  ⟨rfl, fun e he => freeMemory_tracked cid ptr st promise e he hc,
   fun he => freeMemory_untracked cid ptr st promise he hc⟩

/-- Witness for C10: the unregistered caller 5 frees tracked pointer 1 with
success, identically to registered caller 3. -/
theorem C10_freeMemory_ignores_callerID_witness :
    (MumbleAPI.freeMemory_v_1_0_x 5 1 trackedState freshPromise
       = MumbleAPI.freeMemory_v_1_0_x 3 1 trackedState freshPromise)
    ∧ (MumbleAPI.freeMemory_v_1_0_x 5 1 trackedState freshPromise).2.1.m_value
        = some MUMBLE_STATUS_OK := by
  have h := C10_freeMemory_ignores_callerID 5 3 1 trackedState freshPromise rfl
  refine ⟨h.1, ?_⟩
  rw [h.2.1 ⟨Deleter.defaultDeleter, 3, "getUserName"⟩ rfl]
  rfl

/-- C1 counterexample: the free-memory entry point, called with the
unregistered plugin id 5, answers pointer-not-found, not invalid-plugin-id,
so plugin-identity validation does NOT run first on every entry point. -/
theorem C1_counterexample :
    pluginExists emptyState 5 = false
    ∧ (runAPICall (APICall.freeMemory 5 1) emptyState freshPromise).2.1.m_value
        = some MUMBLE_EC_POINTER_NOT_FOUND
    ∧ MUMBLE_EC_POINTER_NOT_FOUND ≠ MUMBLE_EC_INVALID_PLUGIN_ID :=
  ⟨rfl, rfl, by decide⟩

/-- C1 (amended): for every embedded dispatcher entry point EXCEPT
free-memory, a call issued with an unregistered plugin id always yields
invalid-plugin-id, before any other validation (connection, synchronization,
lookup, domain logic) and with no side effects. -/
theorem C1_invalid_plugin_id_first (c : APICall) (st : GlobalState)
    (promise : APIPromise) (hcanc : promise.m_cancelled = false)
    (hnotfm : c.isFreeMemory = false)
    (hid : pluginExists st c.callerID = false) :
    runAPICall c st promise
      = (st, promise.set_value MUMBLE_EC_INVALID_PLUGIN_ID, APIOutput.outNone) := by
  cases c with
  | freeMemory cid ptr => simp [APICall.isFreeMemory] at hnotfm
  | log cid msg =>
    have hplug : getPlugin st cid = none := getPlugin_eq_none_of_not_exists hid
    simp [runAPICall, MumbleAPI.log_v_1_0_x, APIPromise.isCancelled, hcanc, hplug,
      EXIT_WITH]
  | _ =>
    simp_all [runAPICall, APICall.callerID,
      MumbleAPI.getActiveServerConnection_v_1_0_x,
      MumbleAPI.isConnectionSynchronized_v_1_0_x, MumbleAPI.getLocalUserID_v_1_0_x,
      MumbleAPI.getUserName_v_1_0_x, MumbleAPI.getChannelName_v_1_0_x,
      MumbleAPI.getAllUsers_v_1_0_x, MumbleAPI.getUserComment_v_1_0_x,
      MumbleAPI.getChannelDescription_v_1_0_x,
      MumbleAPI.getMumbleSetting_bool_v_1_0_x, MumbleAPI.getMumbleSetting_int_v_1_0_x,
      MumbleAPI.getMumbleSetting_double_v_1_0_x,
      MumbleAPI.getMumbleSetting_string_v_1_0_x,
      MumbleAPI.playSample_v_1_0_x, MumbleAPI.playSample_v_1_2_x,
      VERIFY_PLUGIN_ID, EXIT_WITH, APIPromise.isCancelled]

/-- Witness for amended C1: plugin id 5 is unregistered in the sample state
(which has a valid, synchronized connection and an existing user 42), yet
`getUserName` answers invalid-plugin-id and changes nothing. -/
theorem C1_invalid_plugin_id_first_witness :
    runAPICall (APICall.getUserName 5 0 42) sampleState freshPromise
      = (sampleState, freshPromise.set_value MUMBLE_EC_INVALID_PLUGIN_ID,
         APIOutput.outNone) :=
  C1_invalid_plugin_id_first (APICall.getUserName 5 0 42) sampleState freshPromise rfl
    rfl (by decide)

/-- C5: every typed settings getter fails with wrong-settings-type when the
live value's runtime type differs from the accessor's type (with no state
change and no out-parameter write), and with unknown-settings-key when the
key has no associated setting; in particular a key bound to a double read
through the int accessor yields wrong-settings-type. -/
theorem C5_settings_typed_access (cid : Nat) (key : mumble_settings_key_t)
    (st : GlobalState) (promise : APIPromise)
    (hcanc : promise.m_cancelled = false) (hid : pluginExists st cid = true) :
    (getMumbleSettingHelper st key = none →
        MumbleAPI.getMumbleSetting_bool_v_1_0_x cid key st promise
          = (st, promise.set_value MUMBLE_EC_UNKNOWN_SETTINGS_KEY, APIOutput.outNone)
        ∧ MumbleAPI.getMumbleSetting_int_v_1_0_x cid key st promise
          = (st, promise.set_value MUMBLE_EC_UNKNOWN_SETTINGS_KEY, APIOutput.outNone)
        ∧ MumbleAPI.getMumbleSetting_double_v_1_0_x cid key st promise
          = (st, promise.set_value MUMBLE_EC_UNKNOWN_SETTINGS_KEY, APIOutput.outNone)
        ∧ MumbleAPI.getMumbleSetting_string_v_1_0_x cid key st promise
          = (st, promise.set_value MUMBLE_EC_UNKNOWN_SETTINGS_KEY, APIOutput.outNone))
    ∧ (∀ v, getMumbleSettingHelper st key = some v →
        (v.qtype ≠ QMetaTypeTag.TBool →
          MumbleAPI.getMumbleSetting_bool_v_1_0_x cid key st promise
            = (st, promise.set_value MUMBLE_EC_WRONG_SETTINGS_TYPE, APIOutput.outNone))
        ∧ (v.qtype ≠ QMetaTypeTag.TInt →
          MumbleAPI.getMumbleSetting_int_v_1_0_x cid key st promise
            = (st, promise.set_value MUMBLE_EC_WRONG_SETTINGS_TYPE, APIOutput.outNone))
        ∧ (v.qtype ≠ QMetaTypeTag.TDouble →
          MumbleAPI.getMumbleSetting_double_v_1_0_x cid key st promise
            = (st, promise.set_value MUMBLE_EC_WRONG_SETTINGS_TYPE, APIOutput.outNone))
        ∧ (v.qtype ≠ QMetaTypeTag.TQString →
          MumbleAPI.getMumbleSetting_string_v_1_0_x cid key st promise
            = (st, promise.set_value MUMBLE_EC_WRONG_SETTINGS_TYPE, APIOutput.outNone)))
    ∧ (∀ d, getMumbleSettingHelper st key = some (QVariant.QDouble d) →
        MumbleAPI.getMumbleSetting_int_v_1_0_x cid key st promise
          = (st, promise.set_value MUMBLE_EC_WRONG_SETTINGS_TYPE, APIOutput.outNone)) := by
  refine ⟨fun h => ?_, fun v hv => ?_, fun d hd => ?_⟩
  · simp [MumbleAPI.getMumbleSetting_bool_v_1_0_x, MumbleAPI.getMumbleSetting_int_v_1_0_x,
      MumbleAPI.getMumbleSetting_double_v_1_0_x, MumbleAPI.getMumbleSetting_string_v_1_0_x,
      APIPromise.isCancelled, hcanc, hid, h, VERIFY_PLUGIN_ID, EXIT_WITH]
  · refine ⟨fun hne => ?_, fun hne => ?_, fun hne => ?_, fun hne => ?_⟩ <;>
      simp [MumbleAPI.getMumbleSetting_bool_v_1_0_x,
        MumbleAPI.getMumbleSetting_int_v_1_0_x,
        MumbleAPI.getMumbleSetting_double_v_1_0_x,
        MumbleAPI.getMumbleSetting_string_v_1_0_x,
        APIPromise.isCancelled, hcanc, hid, hv, hne, VERIFY_PLUGIN_ID, EXIT_WITH]
  · simp [MumbleAPI.getMumbleSetting_int_v_1_0_x, APIPromise.isCancelled, hcanc, hid,
      hd, QVariant.qtype, VERIFY_PLUGIN_ID, EXIT_WITH]

/-- Witness for C5: the VAD silence threshold (a double-valued key) read
through the int accessor on the sample state yields wrong-settings-type,
and the invalid key yields unknown-settings-key. -/
theorem C5_settings_typed_access_witness :
    MumbleAPI.getMumbleSetting_int_v_1_0_x 3
        MUMBLE_SK_AUDIO_INPUT_VAD_SILENCE_THRESHOLD sampleState freshPromise
      = (sampleState, freshPromise.set_value MUMBLE_EC_WRONG_SETTINGS_TYPE,
         APIOutput.outNone)
    ∧ MumbleAPI.getMumbleSetting_int_v_1_0_x 3 MUMBLE_SK_INVALID sampleState freshPromise
      = (sampleState, freshPromise.set_value MUMBLE_EC_UNKNOWN_SETTINGS_KEY,
         APIOutput.outNone) := by
  have h1 := C5_settings_typed_access 3 MUMBLE_SK_AUDIO_INPUT_VAD_SILENCE_THRESHOLD
    sampleState freshPromise rfl (by decide)
  have h2 := C5_settings_typed_access 3 MUMBLE_SK_INVALID sampleState freshPromise rfl
    (by decide)
  exact ⟨h1.2.2 sampleSettings.fVADmin rfl, (h2.1 rfl).2.1⟩

/-- C6: reading a blob-style field (user comment, channel description) of
an existing user/channel whose blob is not yet synchronized (empty cached
value, non-empty hash, no blob in the local store) fails with
unsynchronized-blob instead of returning an empty string, with no
out-parameter write. -/
theorem C6_unsynchronized_blob (cid : Nat) (conn : Int) (uid : Nat) (chid : Int)
    (st : GlobalState) (pr1 pr2 : APIPromise) (user : ClientUser) (channel : Channel)
    (hc1 : pr1.m_cancelled = false) (hc2 : pr2.m_cancelled = false)
    (hid : pluginExists st cid = true) (hconn : st.sh = some conn)
    (hsync : st.uiSession ≠ 0)
    (huser : ClientUser.get st uid = some user)
    (hcomment : user.qsComment = "") (hhash : user.qbaCommentHash ≠ "")
    (hblob : dbBlob st user.qbaCommentHash = "")
    (hchan : Channel.get st chid = some channel)
    (hdesc : channel.qsDesc = "") (hdhash : channel.qbaDescHash ≠ "")
    (hdblob : dbBlob st channel.qbaDescHash = "") :
    MumbleAPI.getUserComment_v_1_0_x cid conn uid st pr1
      = ({ st with users := assocUpdate uid { user with qsComment := "" } st.users },
         pr1.set_value MUMBLE_EC_UNSYNCHRONIZED_BLOB, APIOutput.outNone)
    ∧ MumbleAPI.getChannelDescription_v_1_0_x cid conn chid st pr2
      = ({ st with
            channels := assocUpdate chid { channel with qsDesc := "" } st.channels },
         pr2.set_value MUMBLE_EC_UNSYNCHRONIZED_BLOB, APIOutput.outNone) := by
  constructor
  · simp [MumbleAPI.getUserComment_v_1_0_x, APIPromise.isCancelled, hc1, hid, hconn,
      hsync, huser, hcomment, hhash, hblob, VERIFY_PLUGIN_ID, VERIFY_CONNECTION,
      ENSURE_CONNECTION_SYNCHRONIZED, EXIT_WITH]
  · simp [MumbleAPI.getChannelDescription_v_1_0_x, APIPromise.isCancelled, hc2, hid,
      hconn, hsync, hchan, hdesc, hdhash, hdblob, VERIFY_PLUGIN_ID, VERIFY_CONNECTION,
      ENSURE_CONNECTION_SYNCHRONIZED, EXIT_WITH]

/-- Witness for C6: user 42 and channel 1 of the sample state both have
non-empty blob hashes with nothing in the local blob store; both reads
yield unsynchronized-blob. -/
theorem C6_unsynchronized_blob_witness :
    (MumbleAPI.getUserComment_v_1_0_x 3 0 42 sampleState freshPromise).2.1.m_value
      = some MUMBLE_EC_UNSYNCHRONIZED_BLOB
    ∧ (MumbleAPI.getChannelDescription_v_1_0_x 3 0 1 sampleState
        freshPromise).2.1.m_value = some MUMBLE_EC_UNSYNCHRONIZED_BLOB := by
  have h := C6_unsynchronized_blob 3 0 42 1 sampleState freshPromise freshPromise
    ⟨"Alice", "", "h1"⟩ ⟨"Root", "", "h2"⟩ rfl rfl (by decide) rfl (by decide) rfl rfl
    (by decide) rfl rfl rfl (by decide) rfl
  rw [h.1, h.2]
  exact ⟨rfl, rfl⟩

/-- C2: for every scheduling of the dispatcher body relative to the
wrapper's wait / cancel / re-check / synthesize steps, the promise's value
is set exactly once; when the body runs before the 800 ms wait expires or
completes before the wrapper's `cancel()` takes the lock, the caller gets
the dispatcher's real result (and its state effects); otherwise the wrapper
delivers the synthesized API-request-timeout error and the abandoned
operation leaves the state untouched. -/
theorem C2_wrapper_timeout_protocol (c : APICall) (st : GlobalState) (pos : DPos) :
    (runWrapper c st pos).2.setCount = 1
    ∧ ((pos = DPos.beforeWait ∨ pos = DPos.beforeCancel) →
        (runWrapper c st pos).2.m_value = (runAPICall c st freshPromise).2.1.m_value
        ∧ (runWrapper c st pos).1 = (runAPICall c st freshPromise).1)
    ∧ ((pos = DPos.beforeRecheck ∨ pos = DPos.afterRecheck) →
        (runWrapper c st pos).2.m_value = some MUMBLE_EC_API_REQUEST_TIMEOUT
        ∧ (runWrapper c st pos).1 = st) := by
  obtain ⟨v, st', out, hrun⟩ := runAPICall_sets c st freshPromise rfl
  simp only [freshPromise, APIPromise.set_value, Nat.zero_add] at hrun
  cases pos with
  | beforeWait =>
    simp [runWrapper, dispatchStep, freshPromise, hrun, APIPromise.set_value]
  | beforeCancel =>
    simp [runWrapper, dispatchStep, freshPromise, hrun, APIPromise.set_value,
      APIPromise.cancel]
  | beforeRecheck =>
    have hc := runAPICall_cancelled c st
      { m_cancelled := true, m_value := none, setCount := 0 } rfl
    simp [runWrapper, dispatchStep, freshPromise, hc, hrun, APIPromise.set_value,
      APIPromise.cancel]
  | afterRecheck =>
    have hc := runAPICall_cancelled c st
      { m_cancelled := true, m_value := some MUMBLE_EC_API_REQUEST_TIMEOUT,
        setCount := 1 } rfl
    simp [runWrapper, dispatchStep, freshPromise, hc, hrun, APIPromise.set_value,
      APIPromise.cancel]

/-- Witness for C2: for a concrete `freeMemory` call, the late schedule
delivers the timeout error, the early schedule delivers the real result,
and both set the promise exactly once. -/
theorem C2_wrapper_timeout_protocol_witness :
    (runWrapper (APICall.freeMemory 3 1) trackedState DPos.beforeRecheck).2.m_value
      = some MUMBLE_EC_API_REQUEST_TIMEOUT
    ∧ (runWrapper (APICall.freeMemory 3 1) trackedState DPos.beforeWait).2.m_value
      = (runAPICall (APICall.freeMemory 3 1) trackedState freshPromise).2.1.m_value
    ∧ (runWrapper (APICall.freeMemory 3 1) trackedState DPos.beforeWait).2.setCount
      = 1 := by
  have hlate := C2_wrapper_timeout_protocol (APICall.freeMemory 3 1) trackedState
    DPos.beforeRecheck
  have hearly := C2_wrapper_timeout_protocol (APICall.freeMemory 3 1) trackedState
    DPos.beforeWait
  exact ⟨(hlate.2.2 (Or.inl rfl)).1, (hearly.2.1 (Or.inl rfl)).1, hearly.1⟩

/-- A `getUserName` run with all validations passing and the user present:
allocates a name buffer and succeeds. -/
theorem getUserName_success (cid : Nat) (conn : Int) (uid : Nat) (st : GlobalState)
    (pr : APIPromise) (user : ClientUser)
    (hc : pr.m_cancelled = false) (hpe : pluginExists st cid = true)
    (hsh : st.sh = some conn) (hsync : ¬st.uiSession = 0)
    (hus : ClientUser.get st uid = some user) :
    MumbleAPI.getUserName_v_1_0_x cid conn uid st pr
      = ((allocateString st user.qsName cid "getUserName").1,
         pr.set_value MUMBLE_STATUS_OK,
         APIOutput.outPtr (allocateString st user.qsName cid "getUserName").2) := by
  simp [MumbleAPI.getUserName_v_1_0_x, APIPromise.isCancelled, hc, VERIFY_PLUGIN_ID,
    VERIFY_CONNECTION, ENSURE_CONNECTION_SYNCHRONIZED, hpe, hsh, hsync, hus,
    allocateString]

/-- C7: a successful `getUserName` call, repeated with identical arguments
on the resulting state (the backing user directory, settings and connection
state are unchanged; only curator and heap grew), succeeds again, and both
returned buffers hold byte-identical contents: the user's name. -/
theorem C7_getUserName_idempotent (cid uid : Nat) (conn : Int) (st st1 : GlobalState)
    (pr1 pr2 : APIPromise) (p1 : Nat)
    (hp2 : pr2.m_cancelled = false)
    (h1 : MumbleAPI.getUserName_v_1_0_x cid conn uid st pr1
            = (st1, pr1.set_value MUMBLE_STATUS_OK, APIOutput.outPtr p1)) :
    ∃ st2 p2 user,
      ClientUser.get st uid = some user
      ∧ MumbleAPI.getUserName_v_1_0_x cid conn uid st1 pr2
          = (st2, pr2.set_value MUMBLE_STATUS_OK, APIOutput.outPtr p2)
      ∧ assocLookup p1 st1.heap = some (HeapVal.strVal user.qsName)
      ∧ assocLookup p2 st2.heap = some (HeapVal.strVal user.qsName) := by
  have hcv : pr1.isCancelled = false := by
    by_contra hne
    rw [Bool.not_eq_false] at hne
    simp [MumbleAPI.getUserName_v_1_0_x, hne] at h1
  have hpe : pluginExists st cid = true := by
    by_contra hne
    rw [Bool.not_eq_true] at hne
    simp [MumbleAPI.getUserName_v_1_0_x, hcv, VERIFY_PLUGIN_ID, hne, EXIT_WITH] at h1
  have hsh : st.sh = some conn := by
    by_contra hne
    simp [MumbleAPI.getUserName_v_1_0_x, hcv, hpe, VERIFY_PLUGIN_ID, VERIFY_CONNECTION,
      hne, EXIT_WITH] at h1
  have hsync : ¬st.uiSession = 0 := by
    intro hz
    simp [MumbleAPI.getUserName_v_1_0_x, hcv, hpe, hsh, VERIFY_PLUGIN_ID,
      VERIFY_CONNECTION, ENSURE_CONNECTION_SYNCHRONIZED, hz, EXIT_WITH] at h1
  cases hus : ClientUser.get st uid with
  | none =>
    simp [MumbleAPI.getUserName_v_1_0_x, hcv, hpe, hsh, hsync, hus, VERIFY_PLUGIN_ID,
      VERIFY_CONNECTION, ENSURE_CONNECTION_SYNCHRONIZED, EXIT_WITH] at h1
  | some user =>
    simp only [MumbleAPI.getUserName_v_1_0_x, hcv, hpe, hsh, hus,
      VERIFY_PLUGIN_ID, VERIFY_CONNECTION, ENSURE_CONNECTION_SYNCHRONIZED, EXIT_WITH,
      allocateString, Bool.false_eq_true, if_false, if_true, if_neg hsync,
      eq_self_iff_true, true_and, Prod.mk.injEq, APIOutput.outPtr.injEq] at h1
    obtain ⟨rfl, rfl⟩ := h1
    refine ⟨_, _, user, rfl,
      getUserName_success cid conn uid _ pr2 user hp2 hpe rfl hsync hus, ?_, ?_⟩
    · simp [assocLookup]
    · simp [allocateString, assocLookup]

/-- Witness for C7: after the first `getUserName` on the sample state
(which produced buffer 1 and the tracked state), the repeated call succeeds
again and both buffers hold "Alice". -/
theorem C7_getUserName_idempotent_witness :
    ∃ st2 p2 user,
      ClientUser.get sampleState 42 = some user
      ∧ MumbleAPI.getUserName_v_1_0_x 3 0 42 trackedState freshPromise
          = (st2, freshPromise.set_value MUMBLE_STATUS_OK, APIOutput.outPtr p2)
      ∧ assocLookup 1 trackedState.heap = some (HeapVal.strVal user.qsName)
      ∧ assocLookup p2 st2.heap = some (HeapVal.strVal user.qsName) :=
  C7_getUserName_idempotent 3 42 0 sampleState trackedState freshPromise freshPromise 1
    rfl rfl

/-- Any pointer delivered through `outPtr` / `outPtrCount` by a string- or
array-returning entry point has just been registered with the curator, and
curator key distinctness is preserved by the run. -/
theorem outPtr_registered (c : APICall) (st st1 : GlobalState) (pr pr1 : APIPromise)
    (out : APIOutput) (p : Nat)
    (hsr : c.isStringOrArrayReturning = true)
    (hrun : runAPICall c st pr = (st1, pr1, out))
    (hout : out = APIOutput.outPtr p ∨ ∃ n, out = APIOutput.outPtrCount p n) :
    (assocLookup p st1.curator).isSome = true
    ∧ ((st.curator.map Prod.fst).Nodup → (st1.curator.map Prod.fst).Nodup) := by
  cases c <;>
    simp only [APICall.isStringOrArrayReturning, Bool.false_eq_true] at hsr <;>
    simp only [runAPICall, MumbleAPI.getUserName_v_1_0_x,
      MumbleAPI.getChannelName_v_1_0_x, MumbleAPI.getAllUsers_v_1_0_x,
      MumbleAPI.getUserComment_v_1_0_x, MumbleAPI.getChannelDescription_v_1_0_x,
      MumbleAPI.getMumbleSetting_string_v_1_0_x, VERIFY_PLUGIN_ID, VERIFY_CONNECTION,
      ENSURE_CONNECTION_SYNCHRONIZED, EXIT_WITH, allocateString, allocateIds] at hrun <;>
    (repeat' split at hrun) <;>
    (simp only [Prod.mk.injEq] at hrun) <;>
    (obtain ⟨hst, hpr, hout1⟩ := hrun) <;>
    (subst hout1; subst hst) <;>
    (rcases hout with h | ⟨n, h⟩) <;>
    first
      | (injection h with h1 h2; subst h1;
         exact ⟨assocLookup_assocInsert_self _ _ _,
           fun hnd => assocInsert_nodup _ _ _ hnd⟩)
      | (injection h with h1; subst h1;
         exact ⟨assocLookup_assocInsert_self _ _ _,
           fun hnd => assocInsert_nodup _ _ _ hnd⟩)
      | simp at h

/-- C4: a pointer returned by a successful string- or array-returning call
is curator-tracked; freeing it invokes the stored deleter (the heap block
is released), removes the curator entry and returns success; a second free
of the same pointer returns pointer-not-found and leaves curator and state
unchanged. -/
theorem C4_returned_pointer_freed_once (c : APICall) (st st1 : GlobalState)
    (pr pr1 pr2 pr3 : APIPromise) (out : APIOutput) (p cid2 cid3 : Nat)
    (hsr : c.isStringOrArrayReturning = true)
    (hnd : (st.curator.map Prod.fst).Nodup)
    (hp2 : pr2.m_cancelled = false) (hp3 : pr3.m_cancelled = false)
    (hrun : runAPICall c st pr = (st1, pr1, out))
    (hout : out = APIOutput.outPtr p ∨ ∃ n, out = APIOutput.outPtrCount p n) :
    ∃ e st2, assocLookup p st1.curator = some e
      ∧ MumbleAPI.freeMemory_v_1_0_x cid2 p st1 pr2
          = (st2, pr2.set_value MUMBLE_STATUS_OK, APIOutput.outNone)
      ∧ st2.heap = assocErase p st1.heap
      ∧ st2.curator = assocErase p st1.curator
      ∧ assocLookup p st2.curator = none
      ∧ MumbleAPI.freeMemory_v_1_0_x cid3 p st2 pr3
          = (st2, pr3.set_value MUMBLE_EC_POINTER_NOT_FOUND, APIOutput.outNone) := by
  obtain ⟨hsome, hndp⟩ := outPtr_registered c st st1 pr pr1 out p hsr hrun hout
  obtain ⟨e, he⟩ := Option.isSome_iff_exists.mp hsome
  have hfree := freeMemory_tracked cid2 p st1 pr2 e he hp2
  have hnone : assocLookup p (assocErase p st1.curator) = none :=
    assocLookup_assocErase_self p st1.curator (hndp hnd)
  refine ⟨e, _, he, hfree, rfl, rfl, hnone, ?_⟩
  exact freeMemory_untracked cid3 p _ pr3 hnone hp3

/-- Witness for C4: buffer 1 returned by `getUserName` on the sample state
is freed once with success and a second free reports pointer-not-found. -/
theorem C4_returned_pointer_freed_once_witness :
    ∃ e st2, assocLookup 1 trackedState.curator = some e
      ∧ MumbleAPI.freeMemory_v_1_0_x 3 1 trackedState freshPromise
          = (st2, freshPromise.set_value MUMBLE_STATUS_OK, APIOutput.outNone)
      ∧ st2.heap = assocErase 1 trackedState.heap
      ∧ st2.curator = assocErase 1 trackedState.curator
      ∧ assocLookup 1 st2.curator = none
      ∧ MumbleAPI.freeMemory_v_1_0_x 7 1 st2 freshPromise
          = (st2, freshPromise.set_value MUMBLE_EC_POINTER_NOT_FOUND,
             APIOutput.outNone) :=
  C4_returned_pointer_freed_once (APICall.getUserName 3 0 42) sampleState trackedState
    freshPromise (freshPromise.set_value MUMBLE_STATUS_OK) freshPromise freshPromise
    (APIOutput.outPtr 1) 1 3 7 rfl (by simp [sampleState]) rfl rfl rfl (Or.inl rfl)

end API



